import Mathlib

/-!
Verification of the balancer commands scheduler of this repository
(`mongo/db/s/balancer`): a durable command scheduler that serializes,
persists, dispatches and tracks administrative commands issued against
remote shards.

The scheduler implementation (`balancer_commands_scheduler_impl.cpp`) is not
part of the provided sources; only its unit-test file
(`balancer_commands_scheduler_test.cpp`) is.  The definitions below are
therefore a model of the scheduler built from the specification, with every
externally observable behaviour (status codes, error messages, persisted
document fields, re-dispatched command bytes) pinned to what the test file
asserts.  BSON documents are modelled as flat association lists of scalar
fields; a shard-key document such as BSON("x" << 5) is represented by its
integer key value.
-/

namespace Balancer

/-- Modelled from the spec: a scalar BSON value appearing in a serialized
command or in a remote reply (`remoteCommand: opaque-encoded command`).
Key documents and key arrays are represented by their integer shard-key
values. -/
inductive BsonScalar where
  | b (v : Bool)
  | i (v : Int)
  | s (v : String)
  | keyList (ks : List Int)
deriving DecidableEq, Repr

/-- Modelled from the spec: a (flat) BSON document, as used for the
persisted `remoteCommand` field and for remote replies. -/
abbrev BsonDoc := List (String × BsonScalar)

/-- Modelled from the spec's error taxonomy (section 7) and the status codes
asserted by the tests: `CallbackCanceled`, `LockBusy`, `ShardNotFound`,
`NetworkTimeout`, generic application-level failure, and the spec's
`RequestRejected` label. -/
inductive ErrorCode where
  | callbackCanceled
  | lockBusy
  | shardNotFound
  | networkTimeout
  | operationFailed
  | requestRejected
deriving DecidableEq, Repr

/-- Modelled from the spec: command-specific typed payload of a resolved
handle (`split keys, byte size, object count`). -/
inductive TypedResult where
  | noResult
  | splitKeys (keys : List Int)
  | dataSize (size : Int) (numObjects : Int)
deriving DecidableEq, Repr

/-- Modelled from the spec: `outcome: pending|ok|failed(errorKind, message)`
together with the optional typed result. -/
inductive Outcome where
  | pending
  | ok (typed : TypedResult)
  | failed (code : ErrorCode) (msg : String)
deriving DecidableEq, Repr

/-- Modelled from the spec: the kind-specific payload of a `CommandRequest`
(one case per operation kind: MoveRange, MergeRange, SplitRangeByKeys,
EstimateRangeSize, ComputeSplitPoints). -/
inductive CommandKind where
  | moveRange (toShard : String) (min max : Int) (maxChunkSizeBytes : Int)
      (waitForDelete : Bool)
  | mergeRange (min max : Int)
  | splitRangeByKeys (min max : Int) (splitPoints : List Int)
  | computeSplitPoints (min max : Int) (maxSplitPoints : Int)
  | estimateRangeSize (min max : Int) (estimatedValue : Bool)
deriving DecidableEq, Repr

/-- Modelled from the spec: a `CommandRequest` holds the target resource
identifier (namespace), the target node executing the command, and the
operation-specific parameters. -/
structure CommandRequest where
  nss : String
  targetNode : String
  kind : CommandKind
deriving DecidableEq, Repr

/-- Modelled from the spec and the test
`MoveChunkCommandGetsPersistedOnDiskWhenRequestIsSubmitted` (which asserts
`getRequiresDistributedLock()` is true for a move): only move-range
commands carry the `requiresExclusiveLock` flag. -/
def requiresDistributedLock : CommandKind → Bool
  | .moveRange _ _ _ _ _ => true
  | _ => false

/-- Modelled from the spec: serialization of a command request into the
opaque wire document dispatched to the target node and stored in the
`remoteCommand` field of the persisted record. -/
def serialise (r : CommandRequest) : BsonDoc :=
  match r.kind with
  | .moveRange toShard mn mx sz wfd =>
      [("moveChunk", .s r.nss), ("toShard", .s toShard), ("min", .i mn),
       ("max", .i mx), ("maxChunkSizeBytes", .i sz), ("waitForDelete", .b wfd)]
  | .mergeRange mn mx =>
      [("mergeChunks", .s r.nss), ("bounds", .keyList [mn, mx])]
  | .splitRangeByKeys mn mx ks =>
      [("splitChunk", .s r.nss), ("min", .i mn), ("max", .i mx),
       ("splitKeys", .keyList ks)]
  | .computeSplitPoints mn mx msp =>
      [("splitVector", .s r.nss), ("min", .i mn), ("max", .i mx),
       ("maxSplitPoints", .i msp)]
  | .estimateRangeSize mn mx est =>
      [("dataSize", .s r.nss), ("min", .i mn), ("max", .i mx),
       ("estimate", .b est)]

/-- Modelled from the spec (RecoveryRunner: `deserializes each into its
CommandRequest`): inverse of `serialise`, reading the command kind back from
the persisted wire document; the namespace and target node are taken from
the enclosing persisted record. -/
def deserialise (nss targetNode : String) : BsonDoc → Option CommandRequest
  | [("moveChunk", _), ("toShard", .s toShard), ("min", .i mn), ("max", .i mx),
     ("maxChunkSizeBytes", .i sz), ("waitForDelete", .b wfd)] =>
      some ⟨nss, targetNode, .moveRange toShard mn mx sz wfd⟩
  | [("mergeChunks", _), ("bounds", .keyList [mn, mx])] =>
      some ⟨nss, targetNode, .mergeRange mn mx⟩
  | [("splitChunk", _), ("min", .i mn), ("max", .i mx),
     ("splitKeys", .keyList ks)] =>
      some ⟨nss, targetNode, .splitRangeByKeys mn mx ks⟩
  | [("splitVector", _), ("min", .i mn), ("max", .i mx),
     ("maxSplitPoints", .i msp)] =>
      some ⟨nss, targetNode, .computeSplitPoints mn mx msp⟩
  | [("dataSize", _), ("min", .i mn), ("max", .i mx), ("estimate", .b est)] =>
      some ⟨nss, targetNode, .estimateRangeSize mn mx est⟩
  | _ => none

/-- Modelled from the spec: the persisted record layout
`{requestId, namespace, targetNode, requiresExclusiveLock, remoteCommand}`. -/
structure PersistedCommandRecord where
  requestId : Nat
  nss : String
  targetNode : String
  requiresDistributedLock : Bool
  remoteCommand : BsonDoc
deriving DecidableEq, Repr

/-- Modelled from the spec: the record persisted for a request, built from
the request's own data. -/
def mkRecord (id : Nat) (req : CommandRequest) : PersistedCommandRecord :=
  ⟨id, req.nss, req.targetNode, requiresDistributedLock req.kind, serialise req⟩

/-- Modelled from the spec: a ResponseHandle correlating a request id to an
eventual outcome. -/
structure ResponseHandle where
  requestId : Nat
  outcome : Outcome
deriving DecidableEq, Repr

/-- Modelled from the spec: observable events of one scheduler run — lock
acquisitions/releases by the scheduler and network dispatches (target node
and the exact serialized command sent). -/
inductive Event where
  | lockAcquired (nss : String)
  | lockReleased (nss : String)
  | dispatched (targetNode : String) (cmdObj : BsonDoc)
deriving DecidableEq, Repr

/-- True exactly on network-dispatch events. -/
def Event.isDispatch : Event → Bool
  | .dispatched _ _ => true
  | _ => false

/-- Modelled from the spec: the whole observable state — scheduler state
(`running`, fresh-id counter, queue, in-memory request registry, handles),
the durable CommandLog, the shared distributed-lock state (namespaces
currently locked, by the scheduler or by external workflows), and the event
trail. -/
structure World where
  running : Bool
  nextRequestId : Nat
  commandLog : List PersistedCommandRecord
  queue : List Nat
  requests : List (Nat × CommandRequest)
  handles : List ResponseHandle
  distLocks : List String
  events : List Event
deriving DecidableEq, Repr

/-- The world before any operation: scheduler stopped, empty log. -/
def initialWorld : World := ⟨false, 0, [], [], [], [], [], []⟩

/-- Message asserted by test `CommandFailsWhenSchedulerIsStopped` for a
submission while the scheduler is stopped. -/
def rejectedMessage : String := "Request rejected - balancer scheduler is stopped"

/-- Message asserted by test `CommandCanceledIfBalancerStops` for a request
cancelled by `stop()`. -/
def cancelledMessage : String := "Request cancelled - balancer scheduler is stopping"

/-- Message asserted by test `DistLockPreventsMoveChunkWithConcurrentDDL`
when the distributed lock is contended. -/
def lockBusyMessage (nss : String) : String :=
  "Failed to acquire dist lock " ++ nss ++ " locally"

/-- Message asserted by test `MergeChunkNonexistentShard` when the target
shard cannot be resolved. -/
def shardNotFoundMessage (t : String) : String := "Shard " ++ t ++ " not found"

/-- Resolve every still-pending handle bound to `id` with outcome `o`
(handles are resolved exactly once; already-resolved handles are kept). -/
def resolvePending (id : Nat) (o : Outcome) (hs : List ResponseHandle) :
    List ResponseHandle :=
  hs.map fun h =>
    if h.requestId = id ∧ h.outcome = Outcome.pending then ⟨h.requestId, o⟩ else h

/-- Modelled from the spec (`submit` step 1/2): if not running, return a
handle immediately resolved with the rejection status asserted by the test;
otherwise generate a fresh requestId, persist the record synchronously,
enqueue the request and return the still-pending handle's id. -/
def submit (req : CommandRequest) (w : World) : World × Nat :=
  let id := w.nextRequestId
  if w.running then
    ({ w with
        nextRequestId := id + 1,
        commandLog := w.commandLog ++ [mkRecord id req],
        queue := w.queue ++ [id],
        requests := w.requests ++ [(id, req)],
        handles := w.handles ++ [⟨id, Outcome.pending⟩] }, id)
  else
    ({ w with
        nextRequestId := id + 1,
        handles := w.handles ++
          [⟨id, Outcome.failed .callbackCanceled rejectedMessage⟩] }, id)

/-- Modelled from the spec: `stop()` cancels a handle still pending with a
`CallbackCanceled` outcome and the message asserted by the test. -/
def cancelHandle (h : ResponseHandle) : ResponseHandle :=
  if h.outcome = Outcome.pending then
    ⟨h.requestId, Outcome.failed .callbackCanceled cancelledMessage⟩
  else h

/-- Modelled from the spec: `stop()` drains the queue, resolves every
pending handle with `CallbackCanceled`, and leaves the durable CommandLog
untouched (records with no definitive reply remain for recovery). -/
def stop (w : World) : World :=
  { w with running := false, queue := [], handles := w.handles.map cancelHandle }

/-- Modelled from the spec (RecoveryRunner): a leftover persisted record is
deserialized into its CommandRequest, given a fresh internal handle, and fed
into the same enqueue path as `submit`, skipping persistence. -/
def recoverRecord (w : World) (rec : PersistedCommandRecord) : World :=
  match deserialise rec.nss rec.targetNode rec.remoteCommand with
  | some req =>
      { w with
          queue := w.queue ++ [rec.requestId],
          requests := w.requests ++ [(rec.requestId, req)],
          handles := w.handles ++ [⟨rec.requestId, Outcome.pending⟩] }
  | none => w

/-- Modelled from the spec: `start()` is a no-op while running; otherwise it
launches the worker, runs the recovery pass over all persisted records, and
declares the scheduler running. -/
def start (w : World) : World :=
  if w.running then w
  else ({ w with running := true }).commandLog.foldl recoverRecord
        { w with running := true }

/-- Modelled from the spec: release of the distributed lock held by the
scheduler for `nss` (when it acquired one), recorded in the event trail. -/
def releaseIf (locked : Bool) (nss : String) (w : World) : World :=
  if locked then
    { w with
        distLocks := w.distLocks.filter (fun x => x ≠ nss),
        events := w.events ++ [Event.lockReleased nss] }
  else w

/-- Modelled from the spec (ResourceLockBroker shared with external
workflows): an external workflow acquires the namespace lock, failing if it
is already held. -/
def externalLockAcquire (nss : String) (w : World) : Option World :=
  if nss ∈ w.distLocks then none
  else some { w with distLocks := w.distLocks ++ [nss] }

/-- Modelled from the spec: an external workflow releases the namespace
lock. -/
def externalLockRelease (nss : String) (w : World) : World :=
  { w with distLocks := w.distLocks.filter (fun x => x ≠ nss) }

/-- The known shards of the cluster (the external shard registry). -/
structure Env where
  shards : List String
deriving DecidableEq, Repr

/-- Modelled from the spec (RemoteDispatcher): the dispatcher either yields
a definitive reply document from the node, or surfaces a transport
failure. -/
inductive NetworkResponse where
  | reply (doc : BsonDoc)
  | transportError (code : ErrorCode) (msg : String)
deriving DecidableEq, Repr

/-- A reply's `ok` field is truthy (the tests answer both with a boolean
`true` and with the string "1"). -/
def okScalar : BsonScalar → Bool
  | .b v => v
  | .i v => v != 0
  | .s v => v == "1"
  | .keyList _ => false

/-- Whether a definitive reply document reports success. -/
def replyIsOk (doc : BsonDoc) : Bool :=
  match doc.lookup "ok" with
  | some v => okScalar v
  | none => false

/-- Modelled from the spec (dispatch pipeline step 4): parse a definitive
reply into the command-specific typed fields (split keys for
ComputeSplitPoints, size and object count for EstimateRangeSize), or into a
generic ok/error outcome. -/
def parseReply (kind : CommandKind) (doc : BsonDoc) : Outcome :=
  if replyIsOk doc then
    match kind with
    | .computeSplitPoints _ _ _ =>
        match doc.lookup "splitKeys" with
        | some (.keyList ks) => .ok (.splitKeys ks)
        | _ => .failed .operationFailed "missing splitKeys in reply"
    | .estimateRangeSize _ _ _ =>
        match doc.lookup "size", doc.lookup "numObjects" with
        | some (.i sz), some (.i n) => .ok (.dataSize sz n)
        | _, _ => .failed .operationFailed "missing size fields in reply"
    | _ => .ok .noResult
  else
    match doc.lookup "errmsg" with
    | some (.s m) => .failed .operationFailed m
    | _ => .failed .operationFailed "remote command failed"

/-- Modelled from the spec (dispatch pipeline steps 2-4): the dispatch
itself has already been recorded; on transport failure resolve with the
transport error, keep the persisted record, release the lock; on a
definitive reply parse it, resolve the handle, remove the record, release
the lock. -/
def completeDispatch (net : NetworkResponse) (id : Nat) (req : CommandRequest)
    (locked : Bool) (w : World) : World :=
  match net with
  | .transportError code msg =>
      releaseIf locked req.nss
        { w with handles := resolvePending id (.failed code msg) w.handles }
  | .reply doc =>
      releaseIf locked req.nss
        { w with
            handles := resolvePending id (parseReply req.kind doc) w.handles,
            commandLog := w.commandLog.filter (fun r => r.requestId ≠ id) }

/-- Modelled from the spec (dispatch pipeline step 5): resolve the handle
with `ShardNotFound` and remove the persisted record — a terminal,
definitive failure that must not leave a dangling record. -/
def processShardNotFound (id : Nat) (req : CommandRequest) (w : World) : World :=
  { w with
      handles := resolvePending id
        (.failed .shardNotFound (shardNotFoundMessage req.targetNode)) w.handles,
      commandLog := w.commandLog.filter (fun r => r.requestId ≠ id) }

/-- Modelled from the spec: acquisition of the distributed lock for `nss`
by the scheduler (when the command requires one), recorded in the event
trail. -/
def acquireIf (locked : Bool) (nss : String) (w : World) : World :=
  if locked then
    { w with
        distLocks := w.distLocks ++ [nss],
        events := w.events ++ [Event.lockAcquired nss] }
  else w

/-- Record a network dispatch of the request's serialized command to its
target node in the event trail. -/
def recordDispatch (req : CommandRequest) (w : World) : World :=
  { w with events := w.events ++ [Event.dispatched req.targetNode (serialise req)] }

/-- Modelled from the spec (dispatch pipeline steps 1, 2 and 5): lock
acquisition, then target resolution, then dispatch.  On lock contention:
resolve `LockBusy`, keep the record, dispatch nothing.  On
target-resolution failure: resolve `ShardNotFound` with no network contact
and remove the record (the failure is definitive). -/
def processRequest (env : Env) (net : NetworkResponse) (id : Nat)
    (req : CommandRequest) (w : World) : World :=
  if requiresDistributedLock req.kind ∧ req.nss ∈ w.distLocks then
    { w with
        handles := resolvePending id
          (.failed .lockBusy (lockBusyMessage req.nss)) w.handles }
  else if req.targetNode ∈ env.shards then
    completeDispatch net id req (requiresDistributedLock req.kind)
      (recordDispatch req (acquireIf (requiresDistributedLock req.kind) req.nss w))
  else
    releaseIf (requiresDistributedLock req.kind) req.nss
      (processShardNotFound id req
        (acquireIf (requiresDistributedLock req.kind) req.nss w))

/-- Modelled from the spec (worker loop, section 4.1/4.2): the worker, only
while the scheduler runs, dequeues one request and executes the dispatch
pipeline on it; the parameter `net` is the behaviour of the remote node for
this dispatch. -/
def processOne (env : Env) (net : NetworkResponse) (w : World) : World :=
  if w.running then
    match w.queue with
    | [] => w
    | id :: rest =>
      match w.requests.lookup id with
      | none => { w with queue := rest }
      | some req => processRequest env net id req { w with queue := rest }
  else w

/-- The network-dispatch events of a world's event trail. -/
def dispatchesOf (w : World) : List Event :=
  w.events.filter Event.isDispatch

/-- The shard registry of the test fixture: shard0 and shard1. -/
def testEnv : Env := ⟨["shard0", "shard1"]⟩

/-- The namespace used by the test fixture. -/
def testNss : String := "testDb.testColl"

/-- The move-range request of the tests: move the chunk owned by shard0 to
shard1 with the default settings (maxChunkSizeBytes 128, no
waitForDelete). -/
def moveReq : CommandRequest :=
  ⟨testNss, "shard0", .moveRange "shard1" 0 10 128 false⟩

/-- The merge-range request of test `MergeChunkNonexistentShard`, targeting
a shard that is not in the registry. -/
def mergeReq : CommandRequest :=
  ⟨testNss, "nonexistent", .mergeRange 0 20⟩

/-- The estimate-size request of test
`SuccessfulRequestChunkDataSizeCommand`. -/
def dataSizeReq : CommandRequest :=
  ⟨testNss, "shard0", .estimateRangeSize 0 10 false⟩

/-- The compute-split-points request of test
`SuccessfulSplitVectorCommand`. -/
def splitVectorReq : CommandRequest :=
  ⟨testNss, "shard0", .computeSplitPoints 0 10 4⟩

/-- A generic definitive success reply from the remote node. -/
def okReply : BsonDoc := [("ok", .b true)]

/-- The reply of test `SuccessfulRequestChunkDataSizeCommand`:
`{ok: "1", size: 156, numObjects: 25}`. -/
def dataSizeReply : BsonDoc :=
  [("ok", .s "1"), ("size", .i 156), ("numObjects", .i 25)]

/-- A split-vector reply carrying an ordered sequence of split keys. -/
def splitKeysReply (ks : List Int) : BsonDoc :=
  [("ok", .s "1"), ("splitKeys", .keyList ks)]

/-- A running world holding exactly one submitted-and-queued request with
id 0 (its record persisted, its handle pending) and the given set of held
distributed locks. -/
def queuedWorld (req : CommandRequest) (locks : List String) : World :=
  ⟨true, 1, [mkRecord 0 req], [0], [(0, req)], [⟨0, Outcome.pending⟩], locks, []⟩

/-- The CommandLog invariant: every persisted record's id is below the
fresh-id counter, and no two records share a requestId (exactly one record
per outstanding request). -/
def LogInv (w : World) : Prop :=
  (∀ r ∈ w.commandLog, r.requestId < w.nextRequestId)
  ∧ (w.commandLog.map PersistedCommandRecord.requestId).Nodup

/-- Modelled from the spec: one atomic step of the whole system — a
scheduler lifecycle call, a submission, one worker pipeline execution, or
an external workflow taking/releasing a namespace lock. -/
inductive SchedStep (env : Env) : World → World → Prop where
  | startStep (w : World) : SchedStep env w (start w)
  | stopStep (w : World) : SchedStep env w (stop w)
  | submitStep (w : World) (req : CommandRequest) : SchedStep env w (submit req w).1
  | processStep (w : World) (net : NetworkResponse) :
      SchedStep env w (processOne env net w)
  | extLockStep (w w' : World) (nss : String) :
      externalLockAcquire nss w = some w' → SchedStep env w w'
  | extUnlockStep (w : World) (nss : String) :
      SchedStep env w (externalLockRelease nss w)

/-- The worlds reachable from the initial world by system steps. -/
def Reachable (env : Env) (w : World) : Prop :=
  Relation.ReflTransGen (SchedStep env) initialWorld w

/-- Serialization round-trip: recovery reconstructs exactly the submitted
request from its persisted wire document. -/
theorem deserialise_serialise (req : CommandRequest) :
    deserialise req.nss req.targetNode (serialise req) = some req := by
  obtain ⟨nss, t, k⟩ := req
  cases k <;> rfl

theorem recoverRecord_commandLog (w : World) (rec : PersistedCommandRecord) :
    (recoverRecord w rec).commandLog = w.commandLog := by
  unfold recoverRecord
  cases deserialise rec.nss rec.targetNode rec.remoteCommand <;> rfl

theorem recoverRecord_nextRequestId (w : World) (rec : PersistedCommandRecord) :
    (recoverRecord w rec).nextRequestId = w.nextRequestId := by
  unfold recoverRecord
  cases deserialise rec.nss rec.targetNode rec.remoteCommand <;> rfl

theorem foldl_recover_commandLog (l : List PersistedCommandRecord) (w : World) :
    (l.foldl recoverRecord w).commandLog = w.commandLog := by
  induction l generalizing w with
  | nil => rfl
  | cons r l ih => rw [List.foldl_cons, ih, recoverRecord_commandLog]

theorem foldl_recover_nextRequestId (l : List PersistedCommandRecord) (w : World) :
    (l.foldl recoverRecord w).nextRequestId = w.nextRequestId := by
  induction l generalizing w with
  | nil => rfl
  | cons r l ih => rw [List.foldl_cons, ih, recoverRecord_nextRequestId]

theorem start_commandLog (w : World) : (start w).commandLog = w.commandLog := by
  unfold start
  split
  · rfl
  · exact foldl_recover_commandLog _ _

theorem start_nextRequestId (w : World) :
    (start w).nextRequestId = w.nextRequestId := by
  unfold start
  split
  · rfl
  · exact foldl_recover_nextRequestId _ _

theorem logInv_filter (w : World) (p : PersistedCommandRecord → Bool)
    (h : LogInv w) : LogInv { w with commandLog := w.commandLog.filter p } := by
  constructor
  · intro r hr
    exact h.1 r (List.mem_of_mem_filter hr)
  · exact h.2.sublist ((List.filter_sublist w.commandLog).map _)

theorem logInv_releaseIf (b : Bool) (nss : String) (w : World) (h : LogInv w) :
    LogInv (releaseIf b nss w) := by
  unfold releaseIf
  split
  · exact h
  · exact h

theorem logInv_acquireIf (b : Bool) (nss : String) (w : World) (h : LogInv w) :
    LogInv (acquireIf b nss w) := by
  unfold acquireIf
  split
  · exact h
  · exact h

theorem logInv_completeDispatch (net : NetworkResponse) (id : Nat)
    (req : CommandRequest) (locked : Bool) (w : World) (h : LogInv w) :
    LogInv (completeDispatch net id req locked w) := by
  unfold completeDispatch
  split
  · exact logInv_releaseIf _ _ _ h
  · exact logInv_releaseIf _ _ _ (logInv_filter _ _ h)

theorem logInv_processRequest (env : Env) (net : NetworkResponse) (id : Nat)
    (req : CommandRequest) (w : World) (h : LogInv w) :
    LogInv (processRequest env net id req w) := by
  unfold processRequest
  split
  · exact h
  · split
    · exact logInv_completeDispatch _ _ _ _ _ (logInv_acquireIf _ _ _ h)
    · exact logInv_releaseIf _ _ _
        (logInv_filter _ _ (logInv_acquireIf _ _ _ h))

theorem logInv_processOne (env : Env) (net : NetworkResponse) (w : World)
    (h : LogInv w) : LogInv (processOne env net w) := by
  unfold processOne
  split
  · split
    · exact h
    · split
      · exact h
      · exact logInv_processRequest _ _ _ _ _ h
  · exact h

theorem logInv_submit (req : CommandRequest) (w : World) (h : LogInv w) :
    LogInv (submit req w).1 := by
  unfold submit
  split
  · constructor
    · intro r hr
      rcases List.mem_append.1 hr with hl | hl
      · exact (h.1 r hl).trans (Nat.lt_succ_self _)
      · rcases List.mem_singleton.1 hl with rfl
        exact Nat.lt_succ_self _
    · rw [List.map_append, List.nodup_append]
      refine ⟨h.2, List.nodup_singleton _, ?_⟩
      intro a ha hb
      rcases List.mem_singleton.1 hb with rfl
      rcases List.mem_map.1 ha with ⟨r, hr, hid⟩
      exact absurd hid (Nat.ne_of_lt (h.1 r hr))
  · constructor
    · intro r hr
      exact (h.1 r hr).trans (Nat.lt_succ_self _)
    · exact h.2

/-- The CommandLog invariant holds in every reachable world: record ids are
below the fresh-id counter and no requestId has two records. -/
theorem logInv_reachable (env : Env) (w : World) (h : Reachable env w) :
    LogInv w := by
  induction h with
  | refl =>
      exact ⟨by intro r hr; simp [initialWorld] at hr, by simp [initialWorld]⟩
  | tail hsteps hstep ih =>
      cases hstep with
      | startStep =>
          constructor
          · intro r hr
            rw [start_commandLog] at hr
            rw [start_nextRequestId]
            exact ih.1 r hr
          · rw [start_commandLog]
            exact ih.2
      | stopStep => exact ih
      | submitStep req => exact logInv_submit req _ ih
      | processStep net => exact logInv_processOne env net _ ih
      | extLockStep w2 nss hacq =>
          unfold externalLockAcquire at hacq
          split at hacq
          · cases hacq
          · cases hacq
            exact ih
      | extUnlockStep nss => exact ih

theorem contains_filter_ne (l : List String) (a : String) :
    a ∉ l.filter (fun x => x ≠ a) := by
  intro hmem
  rcases List.mem_filter.1 hmem with ⟨_, hdec⟩
  simp at hdec

/-- Claim C1: a command persisted to the CommandLog whose scheduler was
stopped before any definitive reply is re-dispatched by the next `start()`
with a serialized command byte-for-byte equal to the persisted one
(`(mkRecord 0 req).remoteCommand`), exactly once observable (the dispatch
trail of the whole run holds exactly that one dispatch, and none before the
recovered dispatch executes), and after the re-dispatched command completes
with a definitive reply zero records remain in the log. -/
theorem claim_c1_crash_recovery (env : Env) (req : CommandRequest)
    (hT : req.targetNode ∈ env.shards) :
    (stop (submit req (start initialWorld)).1).commandLog = [mkRecord 0 req]
    ∧ dispatchesOf (start (stop (submit req (start initialWorld)).1)) = []
    ∧ dispatchesOf (processOne env (.reply okReply)
        (start (stop (submit req (start initialWorld)).1)))
        = [Event.dispatched req.targetNode ((mkRecord 0 req).remoteCommand)]
    ∧ (processOne env (.reply okReply)
        (start (stop (submit req (start initialWorld)).1))).commandLog = [] := by
  have hds := deserialise_serialise req
  refine ⟨?_, ?_, ?_, ?_⟩ <;>
    cases hL : requiresDistributedLock req.kind <;>
      simp [start, stop, submit, processOne, processRequest, completeDispatch,
        acquireIf, releaseIf, recordDispatch, initialWorld, recoverRecord,
        mkRecord, dispatchesOf, cancelHandle, resolvePending, hds, hT, hL,
        Event.isDispatch, List.filter]

/-- Witness for C1: the move-range request of the tests against the test
shard registry. -/
theorem claim_c1_witness :
    (stop (submit moveReq (start initialWorld)).1).commandLog
        = [mkRecord 0 moveReq]
    ∧ dispatchesOf (start (stop (submit moveReq (start initialWorld)).1)) = []
    ∧ dispatchesOf (processOne testEnv (.reply okReply)
        (start (stop (submit moveReq (start initialWorld)).1)))
        = [Event.dispatched moveReq.targetNode ((mkRecord 0 moveReq).remoteCommand)]
    ∧ (processOne testEnv (.reply okReply)
        (start (stop (submit moveReq (start initialWorld)).1))).commandLog = [] :=
  claim_c1_crash_recovery testEnv moveReq (by decide)

/-- Claim C2: a `submit` while the scheduler runs persists, before
returning, exactly one new record carrying the handle's requestId, the
request's namespace, target node, lock-requirement flag, and a serialized
command byte-equal to the serialization of the submitted request; the
returned handle is bound to that requestId and still pending. -/
theorem claim_c2_submit_persists (req : CommandRequest) (w : World)
    (hrun : w.running = true) :
    (submit req w).1.commandLog
        = w.commandLog ++ [⟨(submit req w).2, req.nss, req.targetNode,
            requiresDistributedLock req.kind, serialise req⟩]
    ∧ (submit req w).1.handles
        = w.handles ++ [⟨(submit req w).2, Outcome.pending⟩]
    ∧ (submit req w).2 = w.nextRequestId := by
  refine ⟨?_, ?_, ?_⟩ <;> simp [submit, mkRecord, hrun]

/-- Witness for C2: the move-range request of the tests submitted to a
freshly started scheduler. -/
theorem claim_c2_witness :
    (submit moveReq (start initialWorld)).1.commandLog
        = (start initialWorld).commandLog
          ++ [⟨(submit moveReq (start initialWorld)).2, moveReq.nss,
              moveReq.targetNode, requiresDistributedLock moveReq.kind,
              serialise moveReq⟩]
    ∧ (submit moveReq (start initialWorld)).1.handles
        = (start initialWorld).handles
          ++ [⟨(submit moveReq (start initialWorld)).2, Outcome.pending⟩]
    ∧ (submit moveReq (start initialWorld)).2
        = (start initialWorld).nextRequestId :=
  claim_c2_submit_persists moveReq (start initialWorld) rfl

/-- Counterexample to claim C3 as stated: submitting while the scheduler is
stopped resolves the handle with error kind `CallbackCanceled` and message
"Request rejected - balancer scheduler is stopped" (as test
`CommandFailsWhenSchedulerIsStopped` asserts), which differs from the
claimed `failed(RequestRejected, "scheduler is stopped")`. -/
theorem claim_c3_counterexample :
    (submit moveReq initialWorld).1.handles
        = [⟨0, Outcome.failed .callbackCanceled rejectedMessage⟩]
    ∧ Outcome.failed .callbackCanceled rejectedMessage
        ≠ Outcome.failed .requestRejected "scheduler is stopped" := by
  constructor
  · rfl
  · decide

/-- Claim C3 (amended): a request submitted while the scheduler is not
running immediately yields a handle resolved to
`failed(CallbackCanceled, "Request rejected - balancer scheduler is
stopped")`, with no record persisted, no lock state touched and no event
(in particular no lock acquisition) produced. -/
theorem claim_c3_amended (req : CommandRequest) (w : World)
    (hstop : w.running = false) :
    (submit req w).1.handles
        = w.handles ++ [⟨(submit req w).2,
            Outcome.failed .callbackCanceled rejectedMessage⟩]
    ∧ (submit req w).1.commandLog = w.commandLog
    ∧ (submit req w).1.events = w.events
    ∧ (submit req w).1.distLocks = w.distLocks := by
  refine ⟨?_, ?_, ?_, ?_⟩ <;> simp [submit, hstop]

/-- Witness for amended C3: the move-range request of the tests submitted
to the never-started scheduler. -/
theorem claim_c3_witness :
    (submit moveReq initialWorld).1.handles
        = initialWorld.handles ++ [⟨(submit moveReq initialWorld).2,
            Outcome.failed .callbackCanceled rejectedMessage⟩]
    ∧ (submit moveReq initialWorld).1.commandLog = initialWorld.commandLog
    ∧ (submit moveReq initialWorld).1.events = initialWorld.events
    ∧ (submit moveReq initialWorld).1.distLocks = initialWorld.distLocks :=
  claim_c3_amended moveReq initialWorld rfl

/-- Claim C4: after `stop()` every handle is resolved (none pending); a
handle pending at stop time resolves to `CallbackCanceled` with the
"cancelled - was running" message, which differs from the "rejected -
never started" message while both share the `CallbackCanceled` kind. -/
theorem claim_c4_stop_resolves_all (w : World) (h : ResponseHandle)
    (hm : h ∈ w.handles) :
    cancelHandle h ∈ (stop w).handles
    ∧ (∀ h2 ∈ (stop w).handles, h2.outcome ≠ Outcome.pending)
    ∧ (h.outcome = Outcome.pending →
        cancelHandle h
          = ⟨h.requestId, Outcome.failed .callbackCanceled cancelledMessage⟩)
    ∧ cancelledMessage ≠ rejectedMessage := by
  refine ⟨?_, ?_, ?_, ?_⟩
  · exact List.mem_map_of_mem cancelHandle hm
  · intro h2 hm2
    rcases List.mem_map.1 hm2 with ⟨x, hx, rfl⟩
    by_cases hp : x.outcome = Outcome.pending <;> simp [cancelHandle, hp]
  · intro hp
    simp [cancelHandle, hp]
  · decide

/-- Witness for C4: stopping a scheduler holding one pending handle. -/
theorem claim_c4_witness :
    cancelHandle ⟨0, Outcome.pending⟩
        ∈ (stop (queuedWorld moveReq [])).handles
    ∧ (∀ h2 ∈ (stop (queuedWorld moveReq [])).handles,
        h2.outcome ≠ Outcome.pending)
    ∧ ((⟨0, Outcome.pending⟩ : ResponseHandle).outcome = Outcome.pending →
        cancelHandle ⟨0, Outcome.pending⟩
          = ⟨0, Outcome.failed .callbackCanceled cancelledMessage⟩)
    ∧ cancelledMessage ≠ rejectedMessage :=
  claim_c4_stop_resolves_all (queuedWorld moveReq []) ⟨0, Outcome.pending⟩
    (by decide)

/-- Counterexample to claim C5 as stated: with the namespace lock held by
an external workflow, the move command's handle resolves with the message
"Failed to acquire dist lock testDb.testColl locally" (as test
`DistLockPreventsMoveChunkWithConcurrentDDL` asserts), not with the claimed
"failed to acquire lock testDb.testColl locally". -/
theorem claim_c5_counterexample :
    (processOne testEnv (.reply okReply)
        (submit moveReq
          ((externalLockAcquire testNss (start initialWorld)).getD
            initialWorld)).1).handles
      = [⟨0, Outcome.failed .lockBusy
            "Failed to acquire dist lock testDb.testColl locally"⟩]
    ∧ Outcome.failed .lockBusy
          "Failed to acquire dist lock testDb.testColl locally"
        ≠ Outcome.failed .lockBusy
            "failed to acquire lock testDb.testColl locally" := by
  constructor
  · rfl
  · decide

/-- Claim C5 (amended): a queued command requiring the exclusive lock whose
namespace lock is held at execution time resolves with
`failed(LockBusy, "Failed to acquire dist lock <namespace> locally")`, no
event (in particular no network dispatch and no lock acquisition) occurs,
the persisted record stays, and the lock state is untouched. -/
theorem claim_c5_amended (env : Env) (net : NetworkResponse) (w : World)
    (id : Nat) (q : List Nat) (req : CommandRequest)
    (hrun : w.running = true)
    (hq : w.queue = id :: q)
    (hreq : w.requests.lookup id = some req)
    (hlock : requiresDistributedLock req.kind = true)
    (hheld : req.nss ∈ w.distLocks) :
    (processOne env net w).handles
        = resolvePending id
            (.failed .lockBusy (lockBusyMessage req.nss)) w.handles
    ∧ (processOne env net w).events = w.events
    ∧ (processOne env net w).commandLog = w.commandLog
    ∧ (processOne env net w).distLocks = w.distLocks := by
  refine ⟨?_, ?_, ?_, ?_⟩ <;>
    simp [processOne, processRequest, hrun, hq, hreq, hlock, hheld]

/-- Witness for amended C5: the queued move-range request with the test
namespace's lock held externally. -/
theorem claim_c5_witness :
    (processOne testEnv (.reply okReply)
        (queuedWorld moveReq [testNss])).handles
        = resolvePending 0
            (.failed .lockBusy (lockBusyMessage moveReq.nss))
            (queuedWorld moveReq [testNss]).handles
    ∧ (processOne testEnv (.reply okReply)
        (queuedWorld moveReq [testNss])).events
        = (queuedWorld moveReq [testNss]).events
    ∧ (processOne testEnv (.reply okReply)
        (queuedWorld moveReq [testNss])).commandLog
        = (queuedWorld moveReq [testNss]).commandLog
    ∧ (processOne testEnv (.reply okReply)
        (queuedWorld moveReq [testNss])).distLocks
        = (queuedWorld moveReq [testNss]).distLocks :=
  claim_c5_amended testEnv (.reply okReply) (queuedWorld moveReq [testNss])
    0 [] moveReq rfl rfl rfl rfl (by decide)

/-- Claim C6: a dispatched command failing with a transport error resolves
the handle with exactly that transport error kind and message, leaves the
persisted record in the CommandLog, and releases any held lock, so the same
namespace lock can be acquired immediately afterwards. -/
theorem claim_c6_transport_error (env : Env) (w : World) (id : Nat)
    (q : List Nat) (req : CommandRequest) (code : ErrorCode) (msg : String)
    (hrun : w.running = true)
    (hq : w.queue = id :: q)
    (hreq : w.requests.lookup id = some req)
    (hT : req.targetNode ∈ env.shards)
    (hfree : req.nss ∉ w.distLocks) :
    (processOne env (.transportError code msg) w).handles
        = resolvePending id (.failed code msg) w.handles
    ∧ (processOne env (.transportError code msg) w).commandLog = w.commandLog
    ∧ req.nss ∉ (processOne env (.transportError code msg) w).distLocks
    ∧ externalLockAcquire req.nss (processOne env (.transportError code msg) w)
        ≠ none := by
  have hbase :
      req.nss ∉ (processOne env (.transportError code msg) w).distLocks := by
    cases hL : requiresDistributedLock req.kind <;>
      simp [processOne, processRequest, completeDispatch, acquireIf, releaseIf,
        recordDispatch, hrun, hq, hreq, hT, hfree, hL, contains_filter_ne]
  refine ⟨?_, ?_, hbase, ?_⟩
  · cases hL : requiresDistributedLock req.kind <;>
      simp [processOne, processRequest, completeDispatch, acquireIf, releaseIf,
        recordDispatch, hrun, hq, hreq, hT, hfree, hL]
  · cases hL : requiresDistributedLock req.kind <;>
      simp [processOne, processRequest, completeDispatch, acquireIf, releaseIf,
        recordDispatch, hrun, hq, hreq, hT, hfree, hL]
  · simp [externalLockAcquire, hbase]

/-- Witness for C6: the queued move-range request answered by the network
timeout of test `CommandFailsWhenNetworkReturnsError`. -/
theorem claim_c6_witness :
    (processOne testEnv
        (.transportError .networkTimeout "Mock error: network timed out")
        (queuedWorld moveReq [])).handles
        = resolvePending 0
            (.failed .networkTimeout "Mock error: network timed out")
            (queuedWorld moveReq []).handles
    ∧ (processOne testEnv
        (.transportError .networkTimeout "Mock error: network timed out")
        (queuedWorld moveReq [])).commandLog
        = (queuedWorld moveReq []).commandLog
    ∧ moveReq.nss ∉ (processOne testEnv
        (.transportError .networkTimeout "Mock error: network timed out")
        (queuedWorld moveReq [])).distLocks
    ∧ externalLockAcquire moveReq.nss (processOne testEnv
        (.transportError .networkTimeout "Mock error: network timed out")
        (queuedWorld moveReq [])) ≠ none :=
  claim_c6_transport_error testEnv (queuedWorld moveReq []) 0 [] moveReq
    .networkTimeout "Mock error: network timed out" rfl rfl rfl (by decide)
    (by decide)

/-- Claim C7: in every reachable world no requestId has more than one
persisted record (one record per outstanding request); any definitive reply
removes exactly the request's record from the log; and in the successful
move-range scenario the handle resolves ok, the log returns to zero
records, and the lock is released (the same lock is acquirable right
after). -/
theorem claim_c7_record_uniqueness (w : World) (hw : Reachable testEnv w) :
    (w.commandLog.map PersistedCommandRecord.requestId).Nodup
    ∧ (∀ (doc : BsonDoc) (id : Nat) (req : CommandRequest) (locked : Bool)
        (wd : World),
        (completeDispatch (.reply doc) id req locked wd).commandLog
          = wd.commandLog.filter (fun r => r.requestId ≠ id))
    ∧ (processOne testEnv (.reply okReply)
        (submit moveReq (start initialWorld)).1).handles
        = [⟨0, Outcome.ok .noResult⟩]
    ∧ (processOne testEnv (.reply okReply)
        (submit moveReq (start initialWorld)).1).commandLog = []
    ∧ (processOne testEnv (.reply okReply)
        (submit moveReq (start initialWorld)).1).distLocks = []
    ∧ externalLockAcquire testNss (processOne testEnv (.reply okReply)
        (submit moveReq (start initialWorld)).1) ≠ none := by
  refine ⟨(logInv_reachable testEnv w hw).2, ?_, ?_, ?_, ?_, ?_⟩
  · intro doc id req locked wd
    simp [completeDispatch, releaseIf]
    split <;> rfl
  · rfl
  · rfl
  · rfl
  · decide

/-- Witness for C7: the world reached by one `start()` step. -/
theorem claim_c7_witness :
    (((start initialWorld).commandLog.map
        PersistedCommandRecord.requestId).Nodup)
    ∧ (∀ (doc : BsonDoc) (id : Nat) (req : CommandRequest) (locked : Bool)
        (wd : World),
        (completeDispatch (.reply doc) id req locked wd).commandLog
          = wd.commandLog.filter (fun r => r.requestId ≠ id))
    ∧ (processOne testEnv (.reply okReply)
        (submit moveReq (start initialWorld)).1).handles
        = [⟨0, Outcome.ok .noResult⟩]
    ∧ (processOne testEnv (.reply okReply)
        (submit moveReq (start initialWorld)).1).commandLog = []
    ∧ (processOne testEnv (.reply okReply)
        (submit moveReq (start initialWorld)).1).distLocks = []
    ∧ externalLockAcquire testNss (processOne testEnv (.reply okReply)
        (submit moveReq (start initialWorld)).1) ≠ none :=
  claim_c7_record_uniqueness (start initialWorld)
    (Relation.ReflTransGen.single (SchedStep.startStep initialWorld))

/-- Claim C8: a definitive ok reply is parsed into the command-specific
typed fields: the estimate-size reply `{ok:"1", size:156, numObjects:25}`
yields typed size 156 and numObjects 25, and a compute-split-points reply
yields exactly the ordered sequence of split keys returned by the node. -/
theorem claim_c8_typed_parsing :
    (processOne testEnv (.reply dataSizeReply)
        (submit dataSizeReq (start initialWorld)).1).handles
      = [⟨0, Outcome.ok (.dataSize 156 25)⟩]
    ∧ ∀ ks : List Int,
        (processOne testEnv (.reply (splitKeysReply ks))
            (submit splitVectorReq (start initialWorld)).1).handles
          = [⟨0, Outcome.ok (.splitKeys ks)⟩] := by
  constructor
  · rfl
  · intro ks
    rfl

/-- Claim C9: a queued command whose target shard cannot be resolved gets
its handle resolved with `failed(ShardNotFound, "Shard <node> not found")`,
no network dispatch occurs, and the persisted record is removed so no
dangling record remains. -/
theorem claim_c9_shard_not_found (env : Env) (net : NetworkResponse)
    (w : World) (id : Nat) (q : List Nat) (req : CommandRequest)
    (hrun : w.running = true)
    (hq : w.queue = id :: q)
    (hreq : w.requests.lookup id = some req)
    (hT : req.targetNode ∉ env.shards)
    (hfree : req.nss ∉ w.distLocks) :
    (processOne env net w).handles
        = resolvePending id
            (.failed .shardNotFound (shardNotFoundMessage req.targetNode))
            w.handles
    ∧ (processOne env net w).commandLog
        = w.commandLog.filter (fun r => r.requestId ≠ id)
    ∧ dispatchesOf (processOne env net w) = dispatchesOf w := by
  refine ⟨?_, ?_, ?_⟩ <;>
    cases hL : requiresDistributedLock req.kind <;>
      simp [processOne, processRequest, processShardNotFound, acquireIf,
        releaseIf, dispatchesOf, Event.isDispatch, hrun, hq, hreq, hT, hfree,
        hL, List.filter_append]

/-- Witness for C9: the merge-range request of test
`MergeChunkNonexistentShard` targeting the shard "nonexistent". -/
theorem claim_c9_witness :
    (processOne testEnv (.reply okReply) (queuedWorld mergeReq [])).handles
        = resolvePending 0
            (.failed .shardNotFound (shardNotFoundMessage mergeReq.targetNode))
            (queuedWorld mergeReq []).handles
    ∧ (processOne testEnv (.reply okReply)
        (queuedWorld mergeReq [])).commandLog
        = (queuedWorld mergeReq []).commandLog.filter
            (fun r => r.requestId ≠ 0)
    ∧ dispatchesOf (processOne testEnv (.reply okReply)
        (queuedWorld mergeReq []))
        = dispatchesOf (queuedWorld mergeReq []) :=
  claim_c9_shard_not_found testEnv (.reply okReply) (queuedWorld mergeReq [])
    0 [] mergeReq rfl rfl rfl (by decide) (by decide)

/-- Claim C10: every move-range request requires the exclusive lock — its
persisted record always carries requiresDistributedLock true — and its
execution acquires the namespace lock, dispatches while holding it, and
releases it right after, for any network behaviour. -/
theorem claim_c10_move_lock_flag (env : Env) (net : NetworkResponse)
    (w : World) (id : Nat) (q : List Nat) (req : CommandRequest)
    (toShard : String) (mn mx sz : Int) (wfd : Bool)
    (hk : req.kind = .moveRange toShard mn mx sz wfd)
    (hrun : w.running = true)
    (hq : w.queue = id :: q)
    (hreq : w.requests.lookup id = some req)
    (hT : req.targetNode ∈ env.shards)
    (hfree : req.nss ∉ w.distLocks) :
    requiresDistributedLock req.kind = true
    ∧ (mkRecord id req).requiresDistributedLock = true
    ∧ (processOne env net w).events
        = w.events ++ [Event.lockAcquired req.nss,
            Event.dispatched req.targetNode (serialise req),
            Event.lockReleased req.nss]
    ∧ req.nss ∉ (processOne env net w).distLocks := by
  have hL : requiresDistributedLock req.kind = true := by
    rw [hk]; rfl
  refine ⟨hL, ?_, ?_, ?_⟩
  · simp [mkRecord, hL]
  · cases net <;>
      simp [processOne, processRequest, completeDispatch, acquireIf, releaseIf,
        recordDispatch, hrun, hq, hreq, hT, hfree, hL]
  · cases net <;>
      simp [processOne, processRequest, completeDispatch, acquireIf, releaseIf,
        recordDispatch, hrun, hq, hreq, hT, hfree, hL, contains_filter_ne]

/-- Witness for C10: the queued move-range request of the tests, answered
with a definitive ok reply. -/
theorem claim_c10_witness :
    requiresDistributedLock moveReq.kind = true
    ∧ (mkRecord 0 moveReq).requiresDistributedLock = true
    ∧ (processOne testEnv (.reply okReply) (queuedWorld moveReq [])).events
        = (queuedWorld moveReq []).events
          ++ [Event.lockAcquired moveReq.nss,
              Event.dispatched moveReq.targetNode (serialise moveReq),
              Event.lockReleased moveReq.nss]
    ∧ moveReq.nss ∉ (processOne testEnv (.reply okReply)
        (queuedWorld moveReq [])).distLocks :=
  claim_c10_move_lock_flag testEnv (.reply okReply) (queuedWorld moveReq [])
    0 [] moveReq "shard1" 0 10 128 false rfl rfl rfl rfl (by decide)
    (by decide)

end Balancer

